import Mathlib

set_option linter.unusedVariables false

/-!
Shallow embedding of the taskcluster-checkout client (src/checkout.py, with
src/client.py an older near-identical revision of the same module).

The program is Python 2.  Conventions of the embedding:
* Python exceptions are values of `PyExc`; a fallible operation returns
  `Except PyExc α`, and an `Except.error` that no `except` clause maps back
  to a return value models an exception escaping to the caller.
* The `while` loop of `download_file` is embedded with explicit fuel; a
  result of `none` means the loop had not terminated within the given fuel,
  for every fuel.
* The filesystem seen by one invocation is a `World` record; functions that
  mutate the filesystem or talk to the network take and return the world and
  append the externally visible operations they perform to `World.trace`.
-/

/-- The Python exception classes raised by the operations the program uses.
In Python 2, `HTTPError < URLError`, and the `except` clauses of the source
name the classes explicitly, so distinct constructors suffice. -/
inductive PyExc where
  | urlError
  | httpError
  | valueError
  | ioError
  | attributeError
  | indexError
  | notADirectoryError
  deriving DecidableEq

/-- Result of `urllib2.urlopen` on the index endpoint: a 200 response whose
`read()` yields `body`, or a raised `HTTPError` (e.g. 404 when the namespace
has no registered task), or a raised `URLError` (transport failure). -/
inductive HttpResp where
  | ok (body : String)
  | httpError
  | urlError
  deriving DecidableEq

/-- Embedding of `urllib2.urlopen` for the index lookup: returns the response whose
`read()` gives the body, or raises. -/
def urlopen : HttpResp → Except PyExc String
  | .ok body => .ok body
  | .httpError => .error .httpError
  | .urlError => .error .urlError

/-- The JSON object the index returns: `{"taskId": "<id>"}`. -/
structure TaskInfo where
  taskId : String
  deriving DecidableEq

/-- A Python object passed to `json.load`: either a `str` (what `r.read()`
returns) or a file-like object with a `read` method. -/
inductive PyObj where
  | str (s : String)
  | file (content : String)

/-- Python 2 `json.load(fp)`: it calls `fp.read()`, so a file-like argument
is parsed (raising `ValueError` when its content is not valid JSON, which the
abstract external parser `jsonOf` decides), while a `str` argument raises
`AttributeError` (a `str` has no `read` method) before any parsing happens.
`AttributeError` is not a subclass of `ValueError`. -/
def json_load (jsonOf : String → Option TaskInfo) : PyObj → Except PyExc TaskInfo
  | .file c =>
    match jsonOf c with
    | some t => .ok t
    | none => .error .valueError
  | .str _ => .error .attributeError

/-- Python `s.rstrip('/')` : drop every trailing `'/'`. -/
def rstripSlash (s : String) : String :=
  String.mk ((s.data.reverse.dropWhile (fun c => c = '/')).reverse)

/-- Embedding of `urljoin(*args)` of checkout.py: `"/".join(map(lambda x: str(x).rstrip('/'), args))`. -/
def urljoin (args : List String) : String :=
  String.intercalate "/" (args.map rstripSlash)

/-- Chars after the first occurrence of `"://"` in the list, `none` when the
list has no such occurrence. -/
def splitScheme : List Char → Option (List Char)
  | ':' :: '/' :: '/' :: rest => some rest
  | _ :: rest => splitScheme rest
  | [] => none

/-- Model of Python `urlparse` restricted to what `get_alias` reads:
`netloc + path`.  For a URL of the form `scheme://rest` (no query, fragment
or parameters, the only shape the program feeds it), `netloc` is `rest` up to
the first `'/'` and `path` is the remainder, so `netloc + path = rest`; for a
URL with no `"://"`, `netloc` is empty and `path` is the whole string. -/
def urlparse_netloc_path (url : List Char) : List Char :=
  match splitScheme url with
  | some rest => rest
  | none => url

/-- Embedding of `get_alias(url)`: `urlparse(url); return o.netloc + o.path`. -/
def get_alias (url : String) : String :=
  String.mk (urlparse_netloc_path url.data)

/-- Python `needle in haystack` on strings: substring containment, true for
the empty needle. -/
def containsSub : List Char → List Char → Bool
  | l, needle =>
    needle.isPrefixOf l ||
      match l with
      | [] => false
      | _ :: cs => containsSub cs needle

/-- Embedding of `repo_is_hg(repo_path, alias)`: the `.hg/hgrc` file under the path is
modelled as `hgrc` (`none` when `os.path.exists(hgrc)` is false); when
present the function reads its content `config` and returns `alias in
config`. -/
def repo_is_hg (hgrc : Option String) (al : String) : Bool :=
  match hgrc with
  | none => false
  | some config => containsSub config.data al.data

/-- Embedding of `lookup_remote_cache(namespace, artifact)`.  Line by line from the
source: the first `urljoin` and `urllib2.urlopen(url)` sit OUTSIDE the
`try`, so an exception `urlopen` raises escapes; inside the `try`,
`json.load(r.read())` applies `json.load` to the `str` returned by
`r.read()`; only `ValueError` is caught (mapped to `return None`). -/
def lookup_remote_cache (jsonOf : String → Option TaskInfo)
    (ns artifact : String) (resp : HttpResp) : Except PyExc (Option String) :=
  let _url := urljoin ["https://index.taskcluster.net/v1", "task", ns]
  match urlopen resp with
  | .error e => .error e
  | .ok body =>
    match json_load jsonOf (.str body) with
    | .error .valueError => .ok none
    | .error e => .error e
    | .ok task =>
      .ok (some (urljoin ["https://queue.taskcluster.net/v1", "task",
        task.taskId, "artifacts", artifact]))

/-- The `while` loop of `download_file`, with explicit fuel.  Per iteration:
`indata = f.read(grabchunk)` yields the next chunk of the remote stream
(`""` once the stream is exhausted); `out.write(indata)` raises `IOError`
at iteration `writeFailAt` when that script says so; then the source reads
`if indata == '': k - False` — the expression `k - False` (an int
subtraction in Python 2) is evaluated and DISCARDED, `k` is never
reassigned, so the loop condition `while k` never becomes false.  A `none`
result means the loop was still running when the fuel ran out. -/
def dl_loop (writeFailAt : Option Nat) :
    Nat → Nat → Bool → List String → Option (Except PyExc Unit)
  | 0, _, _, _ => none
  | fuel + 1, i, k, chunks =>
    if k then
      let _indata := chunks.headD ""
      if writeFailAt = some i then some (.error .ioError)
      else dl_loop writeFailAt fuel (i + 1) k chunks.tail
    else some (.ok ())

/-- Embedding of `download_file(url, dest, grabchunk)`.  The remote stream is
`transport`: either an exception raised by `urllib2.urlopen(url)` or the
list of successive non-empty chunks `f.read` yields, after which every read
returns `""`.  `openDest` is the result of `open(dest, 'wb')`, which creates
the destination file when it succeeds; `destExists0` is
`os.path.exists(dest)` before the call.  The two `except` clauses catch
`(URLError, HTTPError, ValueError)` and `IOError`, fall through, and the
function returns `os.path.exists(dest)`.  `none` models the non-terminating
loop. -/
def download_file (fuel : Nat) (transport : Except PyExc (List String))
    (openDest : Except PyExc Unit) (writeFailAt : Option Nat)
    (destExists0 : Bool) : Option (Except PyExc Bool) :=
  match transport with
  | .error .urlError => some (.ok destExists0)
  | .error .httpError => some (.ok destExists0)
  | .error .valueError => some (.ok destExists0)
  | .error e => some (.error e)
  | .ok chunks =>
    match openDest with
    | .error .ioError => some (.ok destExists0)
    | .error e => some (.error e)
    | .ok _ =>
      match dl_loop writeFailAt fuel 0 true chunks with
      | none => none
      | some (.ok _) => some (.ok true)
      | some (.error .ioError) => some (.ok true)
      | some (.error e) => some (.error e)

/-- A filesystem entry: a file with its content, or a directory with its
listing (name/entry pairs in listing order). -/
inductive FsEntry where
  | file (content : String)
  | dir (entries : List (String × FsEntry))

/-- The archive-installation step of `use_cache_if_available`, for an
archive extracted into a previously non-existent `dest`:
`tar.extractall(dest)` makes the top level of `dest` the archive's top-level
listing; `os.listdir(dest)[0]` raises `IndexError` on an empty listing;
`os.listdir(tarfolder)` raises `NotADirectoryError` when that first entry is
a file; otherwise every entry of the first directory is moved up into `dest`
by `shutil.move` and the emptied directory is removed by `os.rmdir`, leaving
the remaining top-level entries followed by the moved ones. -/
def installFromArchive (archive : List (String × FsEntry)) :
    Except PyExc (List (String × FsEntry)) :=
  match archive with
  | [] => .error .indexError
  | (_, .file _) :: _ => .error .notADirectoryError
  | (_, .dir es) :: rest => .ok (rest ++ es)

/-- Externally visible operations one invocation performs, in order. -/
inductive Event where
  | makedirs
  | indexLookup
  | download (url : String)
  | extract
  | hgClone (url : String)
  | hgOpen
  | hgPull
  | branchQuery
  | pullFrom (src rev : String)
  | update (rev : String)
  deriving DecidableEq

/-- The state one invocation sees: the destination directory, the local
cache file for the alias at hand, the index server, the remote archive
stream, and what the external `hglib` collaborator would do.  `trace`
accumulates the `Event`s performed so far. -/
structure World where
  /-- Value of `os.path.exists(dest)` -/
  destExists : Bool
  /-- top-level listing of `dest` (meaningful when `destExists`) -/
  destTree : List (String × FsEntry)
  /-- content of `dest/.hg/hgrc`, `none` when that file does not exist -/
  hgrc : Option String
  /-- what `client.branch()` reports -/
  branchName : String
  /-- what `client.pull()` reports -/
  pullOk : Bool
  /-- content of the archive at `<cache>/clones/<alias>.tar.gz`, `none`
  when `os.path.exists(local_cache_path)` is false -/
  localArchive : Option (List (String × FsEntry))
  /-- Value of `os.path.exists(os.path.dirname(local_cache_path))` -/
  cloneDirExists : Bool
  /-- the index server's response for this namespace -/
  indexResp : HttpResp
  /-- stream of the remote artifact, as `download_file`'s transport -/
  remoteTransport : Except PyExc (List String)
  /-- result of opening the local cache path for writing -/
  cacheOpen : Except PyExc Unit
  /-- iteration at which writing the cache file raises `IOError`, if any -/
  cacheWriteFail : Option Nat
  /-- archive content a completed download would leave at the cache path -/
  remoteArchive : List (String × FsEntry)
  /-- tree `hglib.clone` would produce at `dest` -/
  hgCloneTree : List (String × FsEntry)
  /-- Content of the hgrc that `hglib.clone` would write -/
  hgCloneHgrc : String
  /-- operations performed so far -/
  trace : List Event

/-- The tail of `use_cache_if_available`: extract the archive `a` (the
content of the local cache file) into `dest` and flatten one level, per
`installFromArchive`; on success the function returns `True` with `dest`
now present and holding the flattened tree. -/
def extractArchive (w : World) (a : List (String × FsEntry)) :
    Except PyExc (Bool × World) :=
  let w := { w with trace := w.trace ++ [Event.extract] }
  match installFromArchive a with
  | .error e => .error e
  | .ok t => .ok (true, { w with destExists := true, destTree := t })

/-- Embedding of `use_cache_if_available(alias, namespace, dest)`.  When the local cache
file exists it is used directly (no index lookup, no download); otherwise
the cache directory is created if missing, `lookup_remote_cache` is
consulted (`return False` on `None`), the artifact is downloaded into the
local cache path (`return False` when `download_file` is false), and the
archive is extracted into `dest` and flattened.  A completed download is
modelled as leaving `remoteArchive` at the cache path (the partial file a
failed write leaves behind is not modelled; no claim reaches it, and
`lookup_remote_cache` in fact always raises — see
`lookup_remote_cache_always_raises`). -/
def use_cache_if_available (jsonOf : String → Option TaskInfo) (fuel : Nat)
    (al ns : String) (w : World) : Option (Except PyExc (Bool × World)) :=
  match w.localArchive with
  | some a => some (extractArchive w a)
  | none =>
    let w := if w.cloneDirExists then w
      else { w with cloneDirExists := true, trace := w.trace ++ [Event.makedirs] }
    let artifact := "public/" ++ al ++ ".tar.gz"
    let w := { w with trace := w.trace ++ [Event.indexLookup] }
    match lookup_remote_cache jsonOf ns artifact w.indexResp with
    | .error e => some (.error e)
    | .ok none => some (.ok (false, w))
    | .ok (some url) =>
      let w := { w with trace := w.trace ++ [Event.download url] }
      match download_file fuel w.remoteTransport w.cacheOpen w.cacheWriteFail false with
      | none => none
      | some (.error e) => some (.error e)
      | some (.ok false) => some (.ok (false, w))
      | some (.ok true) =>
        let w := { w with localArchive := some w.remoteArchive }
        some (extractArchive w w.remoteArchive)

/-- The external `hglib.clone(url, dest)` collaborator: materializes a
fresh clone at `dest` with its `hgrc`. -/
def hglib_clone (url : String) (w : World) : World :=
  { w with destExists := true, destTree := w.hgCloneTree,
           hgrc := some w.hgCloneHgrc, trace := w.trace ++ [Event.hgClone url] }

/-- Deterministic stand-in for the external `hashlib.md5(..).hexdigest()`;
the program only ever embeds the digest in the namespace string, so no
claim depends on its value, only on its determinism. -/
def md5_hexdigest (s : String) : String := s

/-- Embedding of `clone(url, dest)`: compute `alias` and `namespace`; when `dest` does
not exist, try `use_cache_if_available` and fall back to `hglib.clone`;
then `repo_is_hg(dest, alias)` decides between `client.pull()` (returning
its result) and `return False`. -/
def clone (jsonOf : String → Option TaskInfo) (fuel : Nat) (url : String)
    (w : World) : Option (Except PyExc (Bool × World)) :=
  let al := get_alias url
  let ns := "tc-vcs.v1.clones" ++ "." ++ md5_hexdigest al
  let step1 : Option (Except PyExc World) :=
    if w.destExists then some (.ok w)
    else
      match use_cache_if_available jsonOf fuel al ns w with
      | none => none
      | some (.error e) => some (.error e)
      | some (.ok (true, w1)) => some (.ok w1)
      | some (.ok (false, w1)) => some (.ok (hglib_clone url w1))
  match step1 with
  | none => none
  | some (.error e) => some (.error e)
  | some (.ok w1) =>
    if repo_is_hg w1.hgrc al then
      let w2 := { w1 with trace := w1.trace ++ [Event.hgOpen, Event.hgPull] }
      some (.ok (w2.pullOk, w2))
    else some (.ok (false, w1))

/-- Embedding of `CheckoutSubcommand.run` of checkout.py: `if not clone(baseUrl,
directory): return`; then open the client, default `headUrl` to `baseUrl`
and `headRev` to `client.branch()`, and perform `client.pull(source=headUrl,
rev=headRev)` and `client.update(rev=headRev)`.  `args.headRef` is parsed
but never read.  The returned world is the state of `args.directory`
afterwards. -/
def checkout_run (jsonOf : String → Option TaskInfo) (fuel : Nat)
    (directory baseUrl : String) (headUrl headRev headRef : Option String)
    (w : World) : Option (Except PyExc World) :=
  match clone jsonOf fuel baseUrl w with
  | none => none
  | some (.error e) => some (.error e)
  | some (.ok (false, w1)) => some (.ok w1)
  | some (.ok (true, w1)) =>
    let w1 := { w1 with trace := w1.trace ++ [Event.hgOpen] }
    let hu := headUrl.getD baseUrl
    let hrw : String × World :=
      match headRev with
      | some r => (r, w1)
      | none => (w1.branchName, { w1 with trace := w1.trace ++ [Event.branchQuery] })
    some (.ok { hrw.2 with trace := hrw.2.trace ++ [Event.pullFrom hu hrw.1, Event.update hrw.1] })

/-- A trivial JSON-validity oracle used to build concrete witnesses: every
body is treated as invalid JSON.  (The value is irrelevant: the program
never reaches the parser, see `lookup_remote_cache_always_raises`.) -/
def jf0 : String → Option TaskInfo := fun _ => none

/-- A concrete world for witnesses: the destination exists but carries no
hg metadata, the local cache is empty and the index answers 404. -/
def w0 : World :=
  { destExists := true
    destTree := []
    hgrc := none
    branchName := "default"
    pullOk := true
    localArchive := none
    cloneDirExists := false
    indexResp := .httpError
    remoteTransport := .error .urlError
    cacheOpen := .ok ()
    cacheWriteFail := none
    remoteArchive := []
    hgCloneTree := []
    hgCloneHgrc := ""
    trace := [] }

/-- A concrete world for witnesses: no destination yet, and the local cache
already holds an archive with one wrapper directory containing one file. -/
def wcache : World :=
  { w0 with
    destExists := false
    localArchive := some [("wrap", FsEntry.dir [("a", FsEntry.file "x")])] }

/-- Helper: with no scripted write failure, the loop body never changes
`k`, so the loop runs out of any amount of fuel. -/
theorem dl_loop_nofail (fuel : Nat) : ∀ (i : Nat) (chunks : List String),
    dl_loop none fuel i true chunks = none := by
  induction fuel with
  | zero => intro i chunks; rfl
  | succ f ih => intro i chunks; simp [dl_loop, ih]

/-- Helper: a write failure scripted at iteration `m` is reached whenever
the fuel covers the `m - i` iterations before it. -/
theorem dl_loop_writefail (fuel : Nat) : ∀ (i m : Nat) (chunks : List String),
    i ≤ m → m - i < fuel →
    dl_loop (some m) fuel i true chunks = some (.error .ioError) := by
  induction fuel with
  | zero => intro i m chunks h1 h2; omega
  | succ f ih =>
    intro i m chunks h1 h2
    by_cases h : m = i
    · subst h; simp [dl_loop]
    · simp only [dl_loop, if_true]
      rw [if_neg (by simp; omega)]
      exact ih (i + 1) m chunks.tail (by omega) (by omega)

/-- Helper: `splitScheme` finds the scheme separator right after `http`. -/
theorem splitScheme_http (xs : List Char) :
    splitScheme ('h' :: 't' :: 't' :: 'p' :: ':' :: '/' :: '/' :: xs) = some xs := by
  simp [splitScheme]

/-- Helper: `splitScheme` finds the scheme separator right after `https`. -/
theorem splitScheme_https (xs : List Char) :
    splitScheme ('h' :: 't' :: 't' :: 'p' :: 's' :: ':' :: '/' :: '/' :: xs) = some xs := by
  simp [splitScheme]

/-- C1: the claim says `lookup_remote_cache` returns `None` (raising
nothing) when the namespace has no registered task or the body is not valid
JSON.  The code disagrees: `urllib2.urlopen` sits outside the `try`, so the
`HTTPError` of a namespace with no task escapes, and `json.load` is applied
to the `str` returned by `r.read()`, which raises `AttributeError` (not the
caught `ValueError`) before any parsing — so the function raises on every
possible index response and can never return at all, contradicting its own
docstring (`None if the url is unavailable`). -/
theorem lookup_remote_cache_always_raises (jsonOf : String → Option TaskInfo)
    (ns art : String) (resp : HttpResp) :
    ∃ e : PyExc, lookup_remote_cache jsonOf ns art resp = .error e := by
  cases resp with
  | ok body => exact ⟨.attributeError, rfl⟩
  | httpError => exact ⟨.httpError, rfl⟩
  | urlError => exact ⟨.urlError, rfl⟩

/-- C2: the claim says `download_file` terminates on every finite stream
and returns whether the destination exists.  The code disagrees: line 82 of
checkout.py reads `k - False` where `k = False` was intended, a no-op
expression, so once the stream is exhausted the loop keeps reading empty
chunks forever: for every fuel bound the embedded loop is still running
(`none`), for every stream and prior destination state. -/
theorem download_file_loop_never_terminates (fuel : Nat) (chunks : List String)
    (d0 : Bool) : download_file fuel (.ok chunks) (.ok ()) none d0 = none := by
  simp [download_file, dl_loop_nofail]

/-- C3, counterexample: a local write error (IOError on the very first
write, after `open(dest, 'wb')` has created the destination file) is caught,
but the call returns `os.path.exists(dest) = True`, not the `False` the
claim requires. -/
theorem download_file_ioerror_returns_true :
    download_file 1 (Except.ok ["abc"]) (Except.ok ()) (some 0) false = some (Except.ok true) ∧
    (some (Except.ok true) : Option (Except PyExc Bool)) ≠ some (Except.ok false) := by
  constructor
  · rfl
  · simp

/-- C3, amended: when a transport error, HTTP error, or local error occurs
during `download_file`, the error is caught and no exception propagates,
but the call returns `os.path.exists(dest)` rather than `false`: the prior
existence state when the failure precedes the `open(dest, 'wb')`, and
`true` when a write fails after the open has created the file. -/
theorem download_file_errors_caught (fuel m : Nat) (chunks : List String)
    (wf : Option Nat) (d0 : Bool) (hm : m < fuel) :
    download_file fuel (.error .urlError) (.ok ()) wf d0 = some (.ok d0) ∧
    download_file fuel (.error .httpError) (.ok ()) wf d0 = some (.ok d0) ∧
    download_file fuel (.error .valueError) (.ok ()) wf d0 = some (.ok d0) ∧
    download_file fuel (.ok chunks) (.error .ioError) wf d0 = some (.ok d0) ∧
    download_file fuel (.ok chunks) (.ok ()) (some m) d0 = some (.ok true) := by
  refine ⟨rfl, rfl, rfl, rfl, ?_⟩
  simp [download_file, dl_loop_writefail fuel 0 m chunks (Nat.zero_le m) (by omega)]

/-- C3, witness for the amended theorem at fuel 1 and a write failure at
iteration 0. -/
theorem download_file_errors_caught_witness :
    0 < 1 ∧
    (download_file 1 (.error .urlError) (.ok ()) none false = some (.ok false) ∧
     download_file 1 (.error .httpError) (.ok ()) none false = some (.ok false) ∧
     download_file 1 (.error .valueError) (.ok ()) none false = some (.ok false) ∧
     download_file 1 (.ok ["x"]) (.error .ioError) none false = some (.ok false) ∧
     download_file 1 (.ok ["x"]) (.ok ()) (some 0) false = some (.ok true)) :=
  ⟨by decide, download_file_errors_caught 1 0 ["x"] none false (by decide)⟩

/-- C4: when the destination already exists but `repo_is_hg` rejects it for
the alias of the base URL, `clone` reports failure and `CheckoutSubcommand.run`
returns early, and the returned world is the input world itself: the
destination contents (tree and metadata) and the whole operation trace are
exactly as before — no recovery, no overwrite, no VCS operation. -/
theorem checkout_invalid_destination_unchanged (jsonOf : String → Option TaskInfo)
    (fuel : Nat) (dir url : String) (hu hr ref : Option String) (w : World)
    (hex : w.destExists = true)
    (hinv : repo_is_hg w.hgrc (get_alias url) = false) :
    clone jsonOf fuel url w = some (.ok (false, w)) ∧
    checkout_run jsonOf fuel dir url hu hr ref w = some (.ok w) := by
  constructor
  · simp [clone, hex, hinv]
  · simp [checkout_run, clone, hex, hinv]

/-- C4, witness: a destination that exists with no hg metadata. -/
theorem checkout_invalid_destination_unchanged_witness :
    w0.destExists = true ∧
    repo_is_hg w0.hgrc (get_alias "https://foo.org/bar") = false ∧
    (clone jf0 1 "https://foo.org/bar" w0 = some (.ok (false, w0)) ∧
     checkout_run jf0 1 "d" "https://foo.org/bar" none none none w0 = some (.ok w0)) :=
  ⟨rfl, rfl,
    checkout_invalid_destination_unchanged jf0 1 "d" "https://foo.org/bar" none none none w0 rfl rfl⟩

/-- C5, counterexample: `get_alias` keeps a trailing slash, so two URLs
differing only by a trailing slash get different aliases. -/
theorem get_alias_trailing_slash_cex :
    get_alias "https://foo.org/bar" = "foo.org/bar" ∧
    get_alias "https://foo.org/bar/" = "foo.org/bar/" ∧
    ("foo.org/bar" : String) ≠ "foo.org/bar/" := by
  refine ⟨by decide, by decide, by decide⟩

/-- C5, amended: two URLs that differ only by scheme (http vs https) do
produce the same alias; the trailing-slash half of the claim fails, since
`get_alias` preserves the path verbatim. -/
theorem get_alias_scheme_invariant (s : String) :
    get_alias ("http://" ++ s) = get_alias ("https://" ++ s) := by
  unfold get_alias urlparse_netloc_path
  rw [String.data_append, String.data_append]
  rw [show ("http://" : String).data = ['h', 't', 't', 'p', ':', '/', '/'] from rfl]
  rw [show ("https://" : String).data = ['h', 't', 't', 'p', 's', ':', '/', '/'] from rfl]
  simp only [List.cons_append, List.nil_append]
  rw [splitScheme_http s.data, splitScheme_https s.data]

/-- C6: installing an archive whose top level is exactly one directory
holding files `a` and `b` into a fresh destination leaves the destination
top level holding exactly `a` and `b`: the wrapper directory is gone, the
name listing is `[a, b]` with no duplicate, and each file keeps its
content. -/
theorem installFromArchive_single_dir_flattens (d a b fa fb : String) (hab : a ≠ b) :
    installFromArchive [(d, FsEntry.dir [(a, FsEntry.file fa), (b, FsEntry.file fb)])] =
      .ok [(a, FsEntry.file fa), (b, FsEntry.file fb)] ∧
    List.map Prod.fst [(a, FsEntry.file fa), (b, FsEntry.file fb)] = [a, b] ∧
    ([a, b] : List String).Nodup := by
  refine ⟨rfl, by simp, by simp [hab]⟩

/-- C6, witness at a concrete two-file archive. -/
theorem installFromArchive_single_dir_flattens_witness :
    ("a" : String) ≠ "b" ∧
    (installFromArchive [("wrap", FsEntry.dir [("a", FsEntry.file "x"), ("b", FsEntry.file "y")])] =
       .ok [("a", FsEntry.file "x"), ("b", FsEntry.file "y")] ∧
     List.map Prod.fst [(("a" : String), FsEntry.file "x"), ("b", FsEntry.file "y")] = ["a", "b"] ∧
     (["a", "b"] : List String).Nodup) :=
  ⟨by decide, installFromArchive_single_dir_flattens "wrap" "a" "b" "x" "y" (by decide)⟩

/-- C7: whenever the local archive for the alias is already present, two
invocations of the cache-seeded path (even under different index oracles
and fuel, i.e. whatever the network would have answered) both extract the
same flattened tree, and the only new event either run performs is the
extraction — no index lookup and no download occurs on either run. -/
theorem use_cache_local_archive_idempotent (jsonOf1 jsonOf2 : String → Option TaskInfo)
    (fuel1 fuel2 : Nat) (al ns n : String) (es rest : List (String × FsEntry))
    (w1 w2 : World)
    (h1 : w1.localArchive = some ((n, FsEntry.dir es) :: rest))
    (h2 : w2.localArchive = some ((n, FsEntry.dir es) :: rest)) :
    use_cache_if_available jsonOf1 fuel1 al ns w1 =
      some (.ok (true, { w1 with
        destExists := true
        destTree := rest ++ es
        trace := w1.trace ++ [Event.extract] })) ∧
    use_cache_if_available jsonOf2 fuel2 al ns w2 =
      some (.ok (true, { w2 with
        destExists := true
        destTree := rest ++ es
        trace := w2.trace ++ [Event.extract] })) := by
  constructor
  · simp [use_cache_if_available, h1, extractArchive, installFromArchive]
  · simp [use_cache_if_available, h2, extractArchive, installFromArchive]

/-- C7, witness: twice on the same world with a present local archive. -/
theorem use_cache_local_archive_idempotent_witness :
    wcache.localArchive = some [("wrap", FsEntry.dir [("a", FsEntry.file "x")])] ∧
    (use_cache_if_available jf0 1 "foo.org/bar" "ns" wcache =
       some (.ok (true, { wcache with
         destExists := true
         destTree := [] ++ [("a", FsEntry.file "x")]
         trace := wcache.trace ++ [Event.extract] })) ∧
     use_cache_if_available jf0 1 "foo.org/bar" "ns" wcache =
       some (.ok (true, { wcache with
         destExists := true
         destTree := [] ++ [("a", FsEntry.file "x")]
         trace := wcache.trace ++ [Event.extract] }))) :=
  ⟨rfl, use_cache_local_archive_idempotent jf0 jf0 1 1 "foo.org/bar" "ns" "wrap"
    [("a", FsEntry.file "x")] [] wcache wcache rfl rfl⟩

/-- C8: `repo_is_hg` is false when the hgrc metadata file is absent, and
when it is present the result is exactly the substring containment of the
alias in the configuration content the code reads (false when the
configured remote reference does not contain the alias, true otherwise). -/
theorem repo_is_hg_spec (al : String) :
    repo_is_hg none al = false ∧
    ∀ config : String, repo_is_hg (some config) al = containsSub config.data al.data :=
  ⟨rfl, fun _ => rfl⟩

/-- C9: `CheckoutSubcommand.run` never reads `args.headRef`; two
invocations whose arguments differ only in `headRef` produce identical
results — same filesystem outcome, same trace of VCS and network
operations, same success or failure. -/
theorem checkout_run_headRef_no_effect (jsonOf : String → Option TaskInfo) (fuel : Nat)
    (directory baseUrl : String) (headUrl headRev ref1 ref2 : Option String) (w : World) :
    checkout_run jsonOf fuel directory baseUrl headUrl headRev ref1 w =
      checkout_run jsonOf fuel directory baseUrl headUrl headRev ref2 w := rfl

/-- C10: when extraction leaves the destination with no top-level entries,
the unguarded `os.listdir(dest)[0]` of the flattening step raises
`IndexError`, so installation raises instead of returning a boolean. -/
theorem installFromArchive_empty_listing_raises :
    installFromArchive [] = .error .indexError := rfl
